import Mathlib

/-!
# Shallow embedding of `minpy/tape.py`

This file embeds the gradient tape of the repository (`src/minpy/tape.py`)
in Lean 4 and proves the frozen claims about it.

Modelling notes, mirrored from the Python source:

* `array.Value` (the external array abstraction, whose source is not under
  `src/`) is modelled from the spec (sections 2, 3 and 6): an opaque handle
  with an identity usable as a mapping key (`vid`), a query distinguishing
  the pure-scalar `Number` variant (`isNum`), a shape, a backend-type tag and
  a device context.  Gradient payloads (the Values produced by
  `array.Value.wrap` and by gradient arithmetic) are modelled by `GVal`;
  numeric contents are modelled by integers, which is exact for every value
  the claims mention.
* Python's nested owner/result structures (`Value`, `None`, or arbitrarily
  nested sequences) are modelled by `Node`; a Python sequence `[a, b]` is the
  spine `.cons a (.cons b .nil)`.  Raw gradient structures passed between
  `grad_func` and `_cumulate_gradient` are modelled by `GNode`.
* Python dictionaries `Tape._grads` and `Tape._array_grad_records` are
  modelled as total functions from identities to `Option` values; `none`
  models key absence (Python distinguishes `d.get(k, [])` from `d[k]`, and
  the embedding does too).
* `grad_func` closures are modelled by an environment `Nat → GNode → GNode`
  indexed by a function identity, matching Python function-object identity
  (namedtuple equality on `GradRecord` compares the function object by
  identity and the owner/result structures by Value identity).
* The logger of `minpy.utils.log` (standard `logging`; not under `src/`) is
  modelled by two observation fields on the tape state: `fatalLogged` is set
  by `_logger.fatal` (which logs and *returns*; it does not raise), and
  `debugLog` counts the `_logger.debug` line emitted immediately before each
  `grad_func` invocation in `get_gradient`.
* Failures raised by the Python runtime (`assert`, `dict` key errors,
  `list.remove` on a missing element, iterating `None`, attribute access on
  `None`) are modelled by `Except PyErr`.  The unbounded `while` loop of
  `get_gradient` is modelled with explicit fuel; exhausting the fuel is the
  distinguished error `.outOfFuel`, which no terminating Python run hits.
* The class-level `Tape.timestamp` counter is dead bookkeeping (spec section
  9) and is not modelled.
-/

set_option autoImplicit false

namespace MinpyTape

/-- Backend-type tags of the array library (`array_variants.ArrayType`). -/
inductive ArrayType where
  | numpy : ArrayType
  | mxnet : ArrayType
deriving DecidableEq

/-- Modelled from the spec: an `array.Value` as the tape sees it — an opaque
numeric handle with an identity usable as a mapping key (`vid`), the
`array.Number` (pure scalar) test (`isNum`), a shape, a backend-type tag and
a device context identifier. -/
structure Val where
  vid : Nat
  isNum : Bool
  shape : List Nat
  backend : ArrayType
  ctx : Nat
deriving DecidableEq

/-- Number of elements of a tensor of the given shape (`numpy.ones(shape)`
and `numpy.zeros(shape)` allocate this many entries). -/
def numel (shape : List Nat) : Nat :=
  shape.foldl (fun a b => a * b) 1

/-- Modelled from the spec: a gradient Value (the result of
`array.Value.wrap` and of gradient arithmetic).  A scalar wraps one number;
a tensor records its shape, backend, device context and (flattened)
contents.  Numeric contents are integers. -/
inductive GVal where
  | num : Int → GVal
  | tensor : List Nat → ArrayType → Nat → List Int → GVal
deriving DecidableEq

/-- Modelled from the spec: Value addition (`current_gradient += ...`),
which returns a new Value.  Matching kinds add elementwise; a scalar added
to a tensor broadcasts, as in numpy.  The claims only ever add matching
scalars or matching tensors. -/
def GVal.add : GVal → GVal → GVal
  | .num a, .num b => .num (a + b)
  | .tensor s bk c d, .tensor _ _ _ e => .tensor s bk c (List.zipWith (fun x y => x + y) d e)
  | .num a, .tensor s bk c d => .tensor s bk c (d.map (fun x => a + x))
  | .tensor s bk c d, .num b => .tensor s bk c (d.map (fun x => x + b))

/-- A Python owner/result structure: a genuine `Value`, the `None`
placeholder, or a (possibly nested) sequence; the sequence `[a, b]` is the
spine `.cons a (.cons b .nil)`. -/
inductive Node where
  | pynone : Node
  | value : Val → Node
  | nil : Node
  | cons : Node → Node → Node
deriving DecidableEq

/-- `isinstance(x, array.Value)`. -/
def Node.isValue : Node → Bool
  | .value _ => true
  | _ => false

/-- Length of a sequence spine (Python `len`). -/
def Node.seqLen : Node → Nat
  | .cons _ t => t.seqLen + 1
  | _ => 0

/-- Number of leaf occurrences of the Value with identity `w` inside a
structure. -/
def Node.countVid : Node → Nat → Nat
  | .value v, w => if v.vid = w then 1 else 0
  | .cons h t, w => h.countVid w + t.countVid w
  | _, _ => 0

/-- A raw gradient structure: what a `grad_func` returns and what
`_cumulate_gradient` consumes — a single gradient Value or a (possibly
nested) sequence of them, as a spine. -/
inductive GNode where
  | leaf : GVal → GNode
  | gnil : GNode
  | gcons : GNode → GNode → GNode
deriving DecidableEq

/-- Length of a gradient sequence spine (Python `len`). -/
def GNode.seqLen : GNode → Nat
  | .gcons _ t => t.seqLen + 1
  | _ => 0

/-- `GradRecord = namedtuple('GradRecord', ['grad_func', 'result', 'owner'])`.
The `grad_func` closure is referenced through its identity `funcId` in the
function environment. -/
structure GradRecord where
  funcId : Nat
  result : Node
  owner : Node
deriving DecidableEq

/-- Failure modes of the Python runtime, plus fuel exhaustion of the
modelled `while` loop. -/
inductive PyErr where
  | assertionError : PyErr
  | typeError : PyErr
  | keyError : PyErr
  | valueError : PyErr
  | attributeError : PyErr
  | outOfFuel : PyErr
deriving DecidableEq

/-- The state of one `Tape`: the two dictionaries `_grads` and
`_array_grad_records` (keyed by Value identity; `none` is key absence), and
the two logger observations described in the header. -/
structure Tape where
  grads : Nat → Option GVal
  records : Nat → Option (List GradRecord)
  fatalLogged : Bool
  debugLog : Nat

/-- `Tape.__init__`: both dictionaries start empty. -/
def mkTape : Tape :=
  { grads := fun _ => none, records := fun _ => none
    fatalLogged := false, debugLog := 0 }

/-- Store a gradient under a Value identity (`self._grads[arr] = ...`). -/
def writeGrad (st : Tape) (w : Nat) (g : GVal) : Tape :=
  { st with grads := fun u => if u = w then some g else st.grads u }

/-- Store a record list under a Value identity
(`self._array_grad_records[owner] = ...`). -/
def writeRecords (st : Tape) (w : Nat) (l : List GradRecord) : Tape :=
  { st with records := fun u => if u = w then some l else st.records u }

/-- Append a record to a Value's record list, creating the list if the key
is absent (`add_owner`, leaf case of `add_partial_derivative`). -/
def pushRec (w : Nat) (r : GradRecord) (m : Nat → Option (List GradRecord)) :
    Nat → Option (List GradRecord) :=
  fun u => if u = w then some ((m w).getD [] ++ [r]) else m u

/-- `add_owner` inside `Tape.add_partial_derivative`: recurse through the
owner structure; a genuine Value gets the record appended; `None` is a
placeholder for an array that needs no gradient and is skipped. -/
def addOwner (r : GradRecord) : Node → (Nat → Option (List GradRecord)) →
    Nat → Option (List GradRecord)
  | .value v, m => pushRec v.vid r m
  | .pynone, m => m
  | .nil, m => m
  | .cons h t, m => addOwner r t (addOwner r h m)

/-- `Tape.add_partial_derivative(grad_func, owner, result)`: append
`GradRecord(grad_func, result, owner)` to the record list of every genuine
Value leaf inside `owner`.  No return value: only `_array_grad_records`
changes. -/
def add_partial_derivative (st : Tape) (fid : Nat) (owner result : Node) : Tape :=
  { st with records := addOwner ⟨fid, result, owner⟩ owner st.records }

/-- The ones-Value materialized for one gradient target:
`array.Value.wrap(1.0 if isinstance(target, Number) else numpy.ones(target.shape))`.
`numpy.ones` always allocates a numpy-backed tensor in the default context,
whatever the target's backend. -/
def onesGrad (v : Val) : GVal :=
  if v.isNum then .num 1
  else .tensor v.shape .numpy 0 (List.replicate (numel v.shape) 1)

/-- `Tape.set_gradient_target(target)` (`set_single_gradient_target`): a
genuine Value has its cached gradient set to the ones-Value; anything else
is iterated over — iterating `None` raises `TypeError`. -/
def set_gradient_target : Node → Tape → Except PyErr Tape
  | .value v, st => .ok (writeGrad st v.vid (onesGrad v))
  | .pynone, _ => .error .typeError
  | .nil, st => .ok st
  | .cons h t, st =>
      match set_gradient_target h st with
      | .ok st1 => set_gradient_target t st1
      | .error e => .error e

/-- `check_grad_record_empty` inside `Tape._is_gradable`: a Value is clear
when `self._array_grad_records.get(arr, [])` is empty; sequences are checked
recursively; iterating `None` raises `TypeError`. -/
def checkRecordEmpty (st : Tape) : Node → Except PyErr Bool
  | .value v => .ok (((st.records v.vid).getD []).isEmpty)
  | .pynone => .error .typeError
  | .nil => .ok true
  | .cons h t =>
      match checkRecordEmpty st h with
      | .ok true => checkRecordEmpty st t
      | .ok false => .ok false
      | .error e => .error e

/-- The loop of `Tape._is_gradable`: every pending record's `result` must
have an empty record list. -/
def isGradableList (st : Tape) : List GradRecord → Except PyErr Bool
  | [] => .ok true
  | r :: rest =>
      match checkRecordEmpty st r.result with
      | .ok true => isGradableList st rest
      | .ok false => .ok false
      | .error e => .error e

/-- `Tape._is_gradable(current_array)`. -/
def is_gradable (st : Tape) (v : Val) : Except PyErr Bool :=
  isGradableList st ((st.records v.vid).getD [])

/-- The zero-Value allocated by `Tape._get_cached_gradient` for a Value
without a cached gradient: `array.Value.wrap(0.0)` for a Number;
`mxnet.nd.zeros(arr.shape)` allocated under `arr.context.as_mxnet_context()`
when the Value has the MXNET backend type; `numpy.zeros(arr.shape)`
otherwise. -/
def zeroGrad (v : Val) : GVal :=
  if v.isNum then .num 0
  else if v.backend = .mxnet then
    .tensor v.shape .mxnet v.ctx (List.replicate (numel v.shape) 0)
  else
    .tensor v.shape .numpy 0 (List.replicate (numel v.shape) 0)

/-- `Tape._get_cached_gradient(arr)`: sequences produce the matching
structure of cached gradients (the Python generator is consumed eagerly
here; every claim applies it to structures whose gradients it fully
consumes); a Value's gradient is read from `_grads`, lazily initialized to
the matching zero-Value; `None` reaches the attribute accesses of the Value
branch and raises. -/
def get_cached_gradient : Node → Tape → Except PyErr (GNode × Tape)
  | .value v, st =>
      match st.grads v.vid with
      | some g => .ok (.leaf g, st)
      | none => .ok (.leaf (zeroGrad v), writeGrad st v.vid (zeroGrad v))
  | .pynone, _ => .error .attributeError
  | .nil, st => .ok (.gnil, st)
  | .cons h t, st =>
      match get_cached_gradient h st with
      | .ok (gh, st1) =>
          match get_cached_gradient t st1 with
          | .ok (gt, st2) => .ok (.gcons gh gt, st2)
          | .error e => .error e
      | .error e => .error e

/-- Set the fatal-log observation when the sequence lengths disagree
(`if len(arr) != len(grad): _logger.fatal(...)`): the logger records the
message and returns; execution continues. -/
def fatalCheck (a b : Nat) (st : Tape) : Tape :=
  if a = b then st else { st with fatalLogged := true }

/-- `add_gradient` inside `Tape._cumulate_gradient(arr, grad)`: a Value gets
`self._grads[arr] = self._get_cached_gradient(arr) + wrap(grad)`; `None` is
skipped; a sequence owner compares `len(arr)` with `len(grad)` (a mismatch
is logged as fatal — and nothing more) and then recurses over
`zip(arr, grad)`, which silently truncates to the shorter operand.
`len`/`zip` on a non-sequence gradient raises `TypeError`, as does wrapping
a sequence gradient into a single Value's accumulation. -/
def cumulate_gradient : Node → GNode → Tape → Except PyErr Tape
  | .value v, g, st =>
      match g with
      | .leaf gv =>
          match get_cached_gradient (.value v) st with
          | .ok (.leaf cur, st1) => .ok (writeGrad st1 v.vid (cur.add gv))
          | .ok _ => .error .typeError
          | .error e => .error e
      | _ => .error .typeError
  | .pynone, _, st => .ok st
  | .nil, g, st =>
      match g with
      | .leaf _ => .error .typeError
      | g => .ok (fatalCheck (Node.nil.seqLen) g.seqLen st)
  | .cons h t, g, st =>
      match g with
      | .leaf _ => .error .typeError
      | .gnil =>
          .ok (fatalCheck ((Node.cons h t).seqLen) GNode.gnil.seqLen st)
      | .gcons gh gt =>
          let st1 := fatalCheck ((Node.cons h t).seqLen) ((GNode.gcons gh gt).seqLen) st
          match cumulate_gradient h gh st1 with
          | .ok st2 => cumulate_gradient t gt st2
          | .error e => .error e

/-- `remove_grad_record(owner, grad_record)` inside `Tape.get_gradient`:
recurse through the owner structure; at a Value leaf, Python runs
`self._array_grad_records[owner].remove(grad_record)` — a missing key raises
`KeyError` and `list.remove` of an element that is not present raises
`ValueError`; `None` owners are skipped. -/
def removeRecord (r : GradRecord) : Node → Tape → Except PyErr Tape
  | .value v, st =>
      match st.records v.vid with
      | none => .error .keyError
      | some l =>
          if l.contains r then .ok (writeRecords st v.vid (l.erase r))
          else .error .valueError
  | .pynone, st => .ok st
  | .nil, st => .ok st
  | .cons h t, st =>
      match removeRecord r h st with
      | .ok st1 => removeRecord r t st1
      | .error e => .error e

/-- `push_grad_record(arr)` inside `Tape.get_gradient`: push every Value
leaf of a result structure onto the DFS stack (Python appends to the end of
`dfs_stack`; the head of the Lean list is the top of the stack); iterating
`None` raises `TypeError`. -/
def pushResult : Node → List Node → Except PyErr (List Node)
  | .value v, stack => .ok (.value v :: stack)
  | .pynone, _ => .error .typeError
  | .nil, stack => .ok stack
  | .cons h t, stack =>
      match pushResult h stack with
      | .ok s1 => pushResult t s1
      | .error e => .error e

/-- The record-pushing loop of the not-yet-gradable branch:
`for rec in self._array_grad_records[current_array]: push_grad_record(rec.result)`. -/
def pushAll : List GradRecord → List Node → Except PyErr (List Node)
  | [], stack => .ok stack
  | r :: rest, stack =>
      match pushResult r.result stack with
      | .ok s1 => pushAll rest s1
      | .error e => .error e

/-- The record-processing loop of `Tape.get_gradient`: for every pending
record of the popped Value, in list order, log the debug line, evaluate
`grad_func(self._get_cached_gradient(grad_record.result))` in the function
environment `funcs`, and accumulate the returned contribution into the
record's owner. -/
def applyRecords (funcs : Nat → GNode → GNode) :
    List GradRecord → Tape → Except PyErr Tape
  | [], st => .ok st
  | r :: rest, st =>
      let st0 : Tape := { st with debugLog := st.debugLog + 1 }
      match get_cached_gradient r.result st0 with
      | .ok (gn, st1) =>
          match cumulate_gradient r.owner (funcs r.funcId gn) st1 with
          | .ok st2 => applyRecords funcs rest st2
          | .error e => .error e
      | .error e => .error e

/-- The record-removal loop of `Tape.get_gradient`:
`for grad_record in grad_records[:]: remove_grad_record(grad_record.owner, grad_record)`. -/
def removeRecords : List GradRecord → Tape → Except PyErr Tape
  | [], st => .ok st
  | r :: rest, st =>
      match removeRecord r r.owner st with
      | .ok st1 => removeRecords rest st1
      | .error e => .error e

/-- The `while` loop of `Tape.get_gradient`, with explicit fuel.  Each
iteration inspects the top of the stack: the `assert` fails on anything
that is not a genuine Value; a gradable Value is popped, its cached
gradient is initialized if necessary, its pending records are applied and
then removed; otherwise every leaf of every pending record's result is
pushed (the not-gradable branch indexes `self._array_grad_records`
directly, so a missing key raises `KeyError`). -/
def gradLoop (funcs : Nat → GNode → GNode) :
    Nat → List Node → Tape → Except PyErr Tape
  | 0, _, _ => .error .outOfFuel
  | _ + 1, [], st => .ok st
  | fuel + 1, top :: rest, st =>
      match top with
      | .value v =>
          match is_gradable st v with
          | .ok true =>
              match get_cached_gradient (.value v) st with
              | .ok (_, st1) =>
                  let recs := (st1.records v.vid).getD []
                  match applyRecords funcs recs st1 with
                  | .ok st2 =>
                      match removeRecords recs st2 with
                      | .ok st3 => gradLoop funcs fuel rest st3
                      | .error e => .error e
                  | .error e => .error e
              | .error e => .error e
          | .ok false =>
              match st.records v.vid with
              | none => .error .keyError
              | some recs =>
                  match pushAll recs (top :: rest) with
                  | .ok stack2 => gradLoop funcs fuel stack2 st
                  | .error e => .error e
          | .error e => .error e
      | _ => .error .assertionError

/-- `Tape.get_gradient(origin)`: run the reverse traversal starting from a
stack holding `origin`, then return `self._get_cached_gradient(origin)`. -/
def get_gradient (funcs : Nat → GNode → GNode) (fuel : Nat) (st : Tape)
    (origin : Node) : Except PyErr (GNode × Tape) :=
  match gradLoop funcs fuel [origin] st with
  | .ok st1 => get_cached_gradient origin st1
  | .error e => .error e

/-- The module-level state: the class attribute `Tape.global_tape`. -/
structure PyGlobal where
  globalTape : Option Tape

/-- The module-level accessor `global_tape()`. -/
def global_tape (g : PyGlobal) : Option Tape :=
  g.globalTape

/-- The `@contextlib.contextmanager` generator `tape()`:

```
Tape.global_tape = Tape()
yield Tape.global_tape
Tape.global_tape = None
```

Entering the scope installs a fresh Tape as the class-level reference and
runs the body.  On normal completion the generator resumes past the `yield`
and clears the reference.  When the body raises, the exception is thrown
into the generator at the `yield`; the generator has no `try`/`finally`, so
the line clearing the reference never runs and the exception propagates
with the reference still set. -/
def tapeScope (body : PyGlobal → Except PyErr Unit × PyGlobal)
    (g : PyGlobal) : Except PyErr Unit × PyGlobal :=
  match body { g with globalTape := some mkTape } with
  | (.ok _, g1) => (.ok (), { g1 with globalTape := none })
  | (.error e, g1) => (.error e, g1)

/-! ## The diamond scenario

`x` feeds two independent operations `a = f1(x)` and `b = f2(x)`, and
`y = a + b`; the forward pass registers one partial derivative per
(operation, differentiable input) pair, and `y` is seeded to 1.  All four
Values are pure scalars (`Number`s). -/

/-- The scalar `x` of the diamond. -/
def xV : Val := ⟨0, true, [], .numpy, 0⟩

/-- The scalar `a = f1(x)` of the diamond. -/
def aV : Val := ⟨1, true, [], .numpy, 0⟩

/-- The scalar `b = f2(x)` of the diamond. -/
def bV : Val := ⟨2, true, [], .numpy, 0⟩

/-- The scalar `y = a + b` of the diamond. -/
def yV : Val := ⟨3, true, [], .numpy, 0⟩

/-- The forward pass of the diamond: four `add_partial_derivative` calls in
forward temporal order.  Function 1 is the derivative of `f1` (owner `x`,
result `a`), function 2 the derivative of `f2` (owner `x`, result `b`), and
functions 3 and 4 the two partial derivatives of the addition `y = a + b`. -/
def diamondForward : Tape :=
  add_partial_derivative
    (add_partial_derivative
      (add_partial_derivative
        (add_partial_derivative mkTape 1 (.value xV) (.value aV))
        2 (.value xV) (.value bV))
      3 (.value aV) (.value yV))
    4 (.value bV) (.value yV)

/-- The diamond tape after `set_gradient_target(y)` seeds `y` to 1. -/
def diamondTape : Tape :=
  match set_gradient_target (.value yV) diamondForward with
  | .ok st => st
  | .error _ => mkTape

/-- Lift a scalar function to a gradient structure (applied to the single
scalar gradient of the forward result). -/
def liftScalar (f : Int → Int) : GNode → GNode
  | .leaf (.num n) => .leaf (.num (f n))
  | g => g

/-- The function environment of the diamond: functions 1 and 2 are the
chain-rule closures of `f1` and `f2`; functions 3 and 4, the partial
derivatives of the addition `y = a + b`, pass the incoming gradient
through unchanged. -/
def diamondFuncs (g1 g2 : Int → Int) : Nat → GNode → GNode
  | 1 => liftScalar g1
  | 2 => liftScalar g2
  | _ => fun g => g

/-- The diamond with concrete derivative closures: `f1` contributes twice
its incoming gradient and `f2` three times. -/
def cFuncs : Nat → GNode → GNode :=
  diamondFuncs (fun n => 2 * n) (fun n => 3 * n)

/-- The completed backward pass of the concrete diamond. -/
def diamondRun : Except PyErr (GNode × Tape) :=
  get_gradient cFuncs 10 diamondTape (.value xV)

/-! ## A composite-owner scenario

One operation consumes the pair `[p, q]` and produces `r`; its `grad_func`
returns a congruent pair of contributions.  Used for the record-consumption
claim: consuming the single record must empty the record lists of *both*
leaves of its composite owner. -/

/-- First element of the composite owner. -/
def pV : Val := ⟨10, true, [], .numpy, 0⟩

/-- Second element of the composite owner. -/
def qV : Val := ⟨11, true, [], .numpy, 0⟩

/-- The forward result of the composite-owner operation. -/
def rV : Val := ⟨12, true, [], .numpy, 0⟩

/-- Forward pass of the composite-owner scenario, seeded at `r`. -/
def pairTape : Tape :=
  match set_gradient_target (.value rV)
      (add_partial_derivative mkTape 7
        (.cons (.value pV) (.cons (.value qV) .nil)) (.value rV)) with
  | .ok st => st
  | .error _ => mkTape

/-- The derivative closure of the composite-owner operation: a pair of
contributions, 5 for `p` and 6 for `q`. -/
def pairFuncs : Nat → GNode → GNode :=
  fun _ _ => .gcons (.leaf (.num 5)) (.gcons (.leaf (.num 6)) .gnil)

/-- The completed backward pass of the composite-owner scenario. -/
def pairRun : Except PyErr (GNode × Tape) :=
  get_gradient pairFuncs 10 pairTape (.value pV)

/-- C1: in the diamond `a = f1(x)`, `b = f2(x)`, `y = a + b` with `y` seeded
to 1, `get_gradient(x)` returns the sum of the contribution through `f1`
and the contribution through `f2` — for arbitrary derivative closures `g1`
and `g2`, the result is `g1 1 + g2 1`.  The traversal finalizes no Value
before every consumer's record is consumed: both consumers of `x`
contribute before `x`'s gradient is returned. -/
theorem diamond_accumulation (g1 g2 : Int → Int) :
    Except.map Prod.fst
      (get_gradient (diamondFuncs g1 g2) 10 diamondTape (.value xV)) =
      .ok (.leaf (.num (g1 1 + g2 1))) := by
  have h : Except.map Prod.fst
      (get_gradient (diamondFuncs g1 g2) 10 diamondTape (.value xV)) =
      .ok (.leaf (.num (0 + g1 1 + g2 1))) := rfl
  rw [h]
  norm_num

/-- C6: single-record consumption.  In the concrete diamond run, every
finalized Value (`x`, `a`, `b`, identities 0, 1 and 2) ends with an empty
record list, exactly four `grad_func` invocations are logged (one per
registered record), and a second `get_gradient` call on the already
finalized upstream Value `a` returns its cached gradient with the
invocation count still 4 — no consumed record is re-applied.  In the
composite-owner run, consuming the single record removes it from the
record lists of *both* leaves `p` and `q` (identities 10 and 11) of its
owner, after exactly one logged invocation. -/
theorem single_record_consumption :
    (Except.map (fun p => (p.2.records 0, p.2.records 1, p.2.records 2, p.2.debugLog))
        diamondRun = .ok (some [], some [], some [], 4)) ∧
    (match diamondRun with
     | .ok p =>
         Except.map (fun q => (q.1, q.2.debugLog))
           (get_gradient cFuncs 10 p.2 (.value aV)) = .ok (.leaf (.num 1), 4)
     | .error _ => False) ∧
    (Except.map
        (fun p => (p.1, p.2.records 10, p.2.records 11, p.2.grads 11, p.2.debugLog))
        pairRun = .ok (.leaf (.num 5), some [], some [], some (.num 6), 1)) :=
  ⟨rfl, rfl, rfl⟩

/-- C7: idempotent cache read.  A Value whose record list has been emptied
by a previous traversal and whose gradient is cached is returned as-is:
the call yields the cached gradient with the tape state unchanged (in
particular `debugLog` is unchanged, so no `grad_func` is invoked), and
calling again on the returned state yields the same cached Value. -/
theorem idempotent_cache_read (funcs : Nat → GNode → GNode) (st : Tape)
    (v : Val) (g : GVal) (n : Nat)
    (h1 : st.records v.vid = some []) (h2 : st.grads v.vid = some g) :
    get_gradient funcs (n + 1 + 1) st (.value v) = .ok (.leaf g, st) ∧
    (match get_gradient funcs (n + 1 + 1) st (.value v) with
     | .ok p => get_gradient funcs (n + 1 + 1) p.2 (.value v)
     | .error e => .error e) = .ok (.leaf g, st) := by
  have h : get_gradient funcs (n + 1 + 1) st (.value v) = .ok (.leaf g, st) := by
    simp [get_gradient, gradLoop, is_gradable, isGradableList, get_cached_gradient,
      applyRecords, removeRecords, h1, h2]
  exact ⟨h, by rw [h]; exact h⟩

/-- Witness for C7 at a concrete finalized tape: identity 5 holds the
cached scalar gradient 9 and an emptied record list. -/
theorem idempotent_cache_read_witness :
    get_gradient (fun _ g => g) 2
        (writeGrad (writeRecords mkTape 5 []) 5 (.num 9))
        (.value ⟨5, true, [], .numpy, 0⟩) =
      .ok (.leaf (.num 9),
        writeGrad (writeRecords mkTape 5 []) 5 (.num 9)) :=
  (idempotent_cache_read (fun _ g => g)
    (writeGrad (writeRecords mkTape 5 []) 5 (.num 9))
    ⟨5, true, [], .numpy, 0⟩ (.num 9) 0 rfl rfl).1

/-- C10: `get_gradient` invoked on anything that is not a genuine Value
fails loudly: the `assert isinstance(current_array, array.Value)` at the
top of the loop raises an `AssertionError` on the first iteration. -/
theorem get_gradient_type_contract (funcs : Nat → GNode → GNode) (st : Tape)
    (origin : Node) (n : Nat) (h : origin.isValue = false) :
    get_gradient funcs (n + 1) st origin = .error .assertionError := by
  cases origin <;> simp_all [get_gradient, gradLoop, Node.isValue]

/-- Witness for C10: `get_gradient` on the empty list raises. -/
theorem get_gradient_type_contract_witness :
    get_gradient (fun _ g => g) 1 mkTape .nil = .error .assertionError :=
  get_gradient_type_contract (fun _ g => g) mkTape .nil 0 rfl

/-- `addOwner` appends the record to the record list of exactly the Value
leaves reachable inside the traversed structure: the list keyed by `w`
grows by one copy of the record per leaf occurrence of `w`, and every
other list is untouched (zero occurrences append nothing). -/
theorem addOwner_records (r : GradRecord) (node : Node) :
    ∀ (m : Nat → Option (List GradRecord)) (w : Nat),
      ((addOwner r node m) w).getD [] =
        (m w).getD [] ++ List.replicate (node.countVid w) r := by
  induction node with
  | pynone => simp [addOwner, Node.countVid]
  | nil => simp [addOwner, Node.countVid]
  | value v =>
      intro m w
      by_cases h : w = v.vid
      · subst h; simp [addOwner, pushRec, Node.countVid]
      · simp [addOwner, pushRec, Node.countVid, h, Ne.symm h]
  | cons hd tl ih1 ih2 =>
      intro m w
      have e1 := ih2 (addOwner r hd m) w
      rw [ih1] at e1
      have e2 : (Node.cons hd tl).countVid w = hd.countVid w + tl.countVid w := rfl
      have e3 : addOwner r (Node.cons hd tl) m = addOwner r tl (addOwner r hd m) := rfl
      rw [e3, e1, e2, List.replicate_add, List.append_assoc]

/-- C8: `add_partial_derivative(grad_func, owner, result)` appends a new
`GradRecord(grad_func, result, owner)` to the record list of exactly the
genuine Value leaves reachable inside `owner`, recursing through nested
sequences; `None` positions (`countVid` zero there) receive no record and
raise no error (the function is total), and nothing but
`_array_grad_records` changes — there is no return value, and the gradient
cache and logger observations are untouched. -/
theorem add_partial_derivative_appends (st : Tape) (fid : Nat)
    (owner result : Node) (w : Nat) :
    (((add_partial_derivative st fid owner result).records w).getD [] =
      ((st.records w).getD []) ++
        List.replicate (owner.countVid w) ⟨fid, result, owner⟩) ∧
    (add_partial_derivative st fid owner result).grads = st.grads ∧
    (add_partial_derivative st fid owner result).fatalLogged = st.fatalLogged ∧
    (add_partial_derivative st fid owner result).debugLog = st.debugLog :=
  ⟨addOwner_records ⟨fid, result, owner⟩ owner st.records w, rfl, rfl, rfl⟩

/-- C5: a Value `v` without a cached gradient gets a zero-valued gradient
matching `v` on first access — scalar zero for a pure-scalar `v`, else a
zero tensor of `v`'s shape, allocated with `v`'s backend type and (for the
MXNET backend) in `v`'s own device context.  Consequently a Value with no
pending `GradRecord` yields that all-zeros gradient from `get_gradient`,
never an absent result. -/
theorem zero_init (st : Tape) (funcs : Nat → GNode → GNode) (v : Val) (n : Nat)
    (hg : st.grads v.vid = none) (hr : (st.records v.vid).getD [] = []) :
    (get_cached_gradient (.value v) st =
      .ok (.leaf (zeroGrad v), writeGrad st v.vid (zeroGrad v))) ∧
    (get_gradient funcs (n + 1 + 1) st (.value v) =
      .ok (.leaf (zeroGrad v), writeGrad st v.vid (zeroGrad v))) ∧
    (v.isNum = true → zeroGrad v = .num 0) ∧
    (v.isNum = false → v.backend = .mxnet →
      zeroGrad v = .tensor v.shape .mxnet v.ctx (List.replicate (numel v.shape) 0)) ∧
    (v.isNum = false → v.backend = .numpy →
      zeroGrad v = .tensor v.shape .numpy 0 (List.replicate (numel v.shape) 0)) := by
  refine ⟨?_, ?_, ?_, ?_, ?_⟩
  · simp [get_cached_gradient, hg]
  · simp [get_gradient, gradLoop, is_gradable, isGradableList, get_cached_gradient,
      applyRecords, removeRecords, writeGrad, hg, hr]
  · intro h; simp [zeroGrad, h]
  · intro h1 h2; simp [zeroGrad, h1, h2]
  · intro h1 h2; simp [zeroGrad, h1, h2]

/-- Witness for C5 at a fresh tape and a concrete MXNET tensor Value of
shape `[2]` living in device context 7. -/
theorem zero_init_witness :
    get_cached_gradient (.value ⟨5, false, [2], .mxnet, 7⟩) mkTape =
      .ok (.leaf (.tensor [2] .mxnet 7 [0, 0]),
        writeGrad mkTape 5 (.tensor [2] .mxnet 7 [0, 0])) ∧
    get_gradient (fun _ g => g) 2 mkTape (.value ⟨5, false, [2], .mxnet, 7⟩) =
      .ok (.leaf (.tensor [2] .mxnet 7 [0, 0]),
        writeGrad mkTape 5 (.tensor [2] .mxnet 7 [0, 0])) := by
  have h := zero_init mkTape (fun _ g => g) ⟨5, false, [2], .mxnet, 7⟩ 0 rfl rfl
  exact ⟨h.1, h.2.1⟩

/-- The MXNET-backed, non-scalar Value of shape `[2]` used for the backend
counterexample. -/
def vmx : Val := ⟨5, false, [2], .mxnet, 7⟩

/-- Backend tag of a gradient Value (`none` for a pure scalar). -/
def gvalBackend : GVal → Option ArrayType
  | .num _ => none
  | .tensor _ bk _ _ => some bk

/-- C4 counterexample: for an MXNET-backed tensor target,
`set_gradient_target` materializes the cached gradient through
`numpy.ones(target.shape)`, so the stored ones tensor is numpy-backed while
the Value's backend is MXNET — the materialized gradient does *not* match
the Value's backend, refuting the claim at this input. -/
theorem ones_backend_mismatch :
    Except.map (fun st => (st.grads 5).map gvalBackend)
        (set_gradient_target (.value vmx) mkTape) =
      .ok (some (some .numpy)) ∧
    vmx.backend = .mxnet ∧ ArrayType.numpy ≠ ArrayType.mxnet :=
  ⟨rfl, rfl, by decide⟩

/-- C4 amended: for every leaf Value of the target, `set_gradient_target`
materializes the cached gradient as scalar 1 when the Value is a pure
scalar, and otherwise as an all-ones tensor matching the Value's *shape*
but always allocated through numpy in the default context, regardless of
the Value's backend. -/
theorem set_gradient_target_ones (st : Tape) (v : Val) :
    set_gradient_target (.value v) st = .ok (writeGrad st v.vid (onesGrad v)) ∧
    (v.isNum = true → onesGrad v = .num 1) ∧
    (v.isNum = false →
      onesGrad v = .tensor v.shape .numpy 0 (List.replicate (numel v.shape) 1)) := by
  refine ⟨rfl, ?_, ?_⟩ <;> intro h <;> simp [onesGrad, h]

/-- Witness for C4 at the scalar `y` of the diamond and at the concrete
MXNET tensor Value. -/
theorem set_gradient_target_ones_witness :
    set_gradient_target (.value yV) mkTape = .ok (writeGrad mkTape 3 (.num 1)) ∧
    onesGrad vmx = .tensor [2] .numpy 0 [1, 1] :=
  ⟨(set_gradient_target_ones mkTape yV).1,
   (set_gradient_target_ones mkTape vmx).2.2 rfl⟩

/-- C9 counterexample: `set_gradient_target` *overwrites* a materialized
gradient with a fresh ones-Value, ignoring the old entry: two tapes whose
cached gradients for identity 3 differ (5 versus 7) are both reset to 1 by
the same call, so the new entry is not the accumulated sum of the old entry
and any fixed contribution — the old value is discarded. -/
theorem overwrite_on_reseed :
    Except.map (fun st => st.grads 3)
        (set_gradient_target (.value yV) (writeGrad mkTape 3 (.num 5))) =
      .ok (some (.num 1)) ∧
    Except.map (fun st => st.grads 3)
        (set_gradient_target (.value yV) (writeGrad mkTape 3 (.num 7))) =
      .ok (some (.num 1)) :=
  ⟨rfl, rfl⟩

/-- C9 amended: once `grads[v]` is materialized, `add_partial_derivative`
and `_get_cached_gradient` preserve the entry, and `_cumulate_gradient`
replaces it only by the sum of the old entry and the wrapped contribution;
`set_gradient_target`, however, unconditionally overwrites the entry of
each target leaf with a fresh ones-Value. -/
theorem accumulate_only_growth (st : Tape) (fid : Nat) (o r : Node) (v : Val)
    (g c : GVal) (h : st.grads v.vid = some g) :
    (add_partial_derivative st fid o r).grads v.vid = some g ∧
    get_cached_gradient (.value v) st = .ok (.leaf g, st) ∧
    cumulate_gradient (.value v) (.leaf c) st =
      .ok (writeGrad st v.vid (g.add c)) ∧
    set_gradient_target (.value v) st = .ok (writeGrad st v.vid (onesGrad v)) := by
  refine ⟨h, ?_, ?_, rfl⟩ <;> simp [get_cached_gradient, cumulate_gradient, h]

/-- Witness for C9: accumulating the contribution 2 into the materialized
gradient 5 of identity 3 replaces the entry by the sum 7. -/
theorem accumulate_only_growth_witness :
    cumulate_gradient (.value yV) (.leaf (.num 2)) (writeGrad mkTape 3 (.num 5)) =
      .ok (writeGrad (writeGrad mkTape 3 (.num 5)) 3 (.num 7)) :=
  (accumulate_only_growth (writeGrad mkTape 3 (.num 5)) 0 .nil .nil yV
    (.num 5) (.num 2) rfl).2.2.1

/-- First scalar owner of the mismatched accumulation. -/
def m1V : Val := ⟨21, true, [], .numpy, 0⟩

/-- Second scalar owner of the mismatched accumulation. -/
def m2V : Val := ⟨22, true, [], .numpy, 0⟩

/-- C2 (code bug): accumulating a length-1 contribution into the length-2
owner `[m1, m2]` logs the fatal message — and then *proceeds*: `zip`
silently truncates, the single contribution is accumulated into `m1`, `m2`
is left untouched, and the call returns successfully instead of aborting. -/
theorem mismatch_logged_but_zipped :
    Except.map (fun st => (st.fatalLogged, st.grads 21, st.grads 22))
        (cumulate_gradient (.cons (.value m1V) (.cons (.value m2V) .nil))
          (.gcons (.leaf (.num 9)) .gnil) mkTape) =
      .ok (true, some (.num 9), none) :=
  rfl

/-- C3 (code bug): entering a `tape()` scope installs a fresh Tape as the
module-level reference (a body that fails unless `global_tape()` is set
succeeds), and leaving the scope normally clears it; but when the body
raises, the generator-based context manager never resumes past its
`yield`, the clearing line does not run, the error propagates, and the
module-level accessor still returns the stale Tape. -/
theorem scope_clear_not_unconditional :
    ((tapeScope (fun g =>
        (if (global_tape g).isSome then .ok () else .error .assertionError, g))
      ⟨none⟩).1 = .ok ()) ∧
    (global_tape (tapeScope (fun g => (.ok (), g)) ⟨none⟩).2 = none) ∧
    ((tapeScope (fun g => (.error .valueError, g)) ⟨none⟩).1 =
      .error .valueError) ∧
    ((global_tape (tapeScope (fun g => (.error .valueError, g)) ⟨none⟩).2).isSome
      = true) :=
  ⟨rfl, rfl, rfl, rfl⟩

end MinpyTape
